import Mathlib

/-!
Shallow embedding of the fabrik saga services (Python sources under
`apps-py/`): the order/inventory/shipment store, the message-handling
operations of the inventory, fulfillment, orders and shipping-processor
services, and the chaos (fault-injection) layer.  Database rows are
modelled as association lists keyed by their primary key; SQL `UPDATE`
statements are modelled as maps over those lists; Kafka publication is
modelled as the list of (topic, payload) pairs an operation emits.
-/

namespace Fabrik

/-- A message published to the bus: a Kafka topic name and a UTF-8 payload. -/
structure Msg where
  topic : String
  payload : String
deriving Repr, DecidableEq

/-- A row of `orders(id, customer_name, customer_email, product, quantity,
price, status, created_at)`; the id is the association-list key and the
timestamp is not read by any modelled operation. -/
structure OrderRow where
  customerName : String
  customerEmail : String
  product : String
  quantity : Int
  price : ℚ
  status : String
deriving Repr, DecidableEq

/-- A row of `shipments(id, order_id, carrier, tracking_number, status,
created_at)`; the id is the association-list key. -/
structure ShipmentRow where
  orderId : String
  carrier : String
  trackingNumber : String
  status : String
deriving Repr, DecidableEq

/-- The persistent store: the three tables, each keyed by its primary key
(`orders.id`, `inventory.product_name`, `shipments.id`). -/
structure Store where
  orders : List (String × OrderRow)
  inventory : List (String × Int)
  shipments : List (String × ShipmentRow)
deriving Repr, DecidableEq

/-- `SELECT ... FROM orders WHERE id = %s` followed by `fetchone()`. -/
def lookupOrder (s : Store) (orderId : String) : Option OrderRow :=
  (s.orders.find? (fun e => e.1 == orderId)).map Prod.snd

/-- `SELECT quantity FROM inventory WHERE product_name = %s` / `fetchone()`. -/
def lookupInventory (inv : List (String × Int)) (product : String) : Option Int :=
  (inv.find? (fun e => e.1 == product)).map Prod.snd

/-- `SELECT ... FROM shipments WHERE id = %s` followed by `fetchone()`. -/
def lookupShipment (s : Store) (shipmentId : String) : Option ShipmentRow :=
  (s.shipments.find? (fun e => e.1 == shipmentId)).map Prod.snd

/-- The status column of the order row with the given id, when it exists. -/
def lookupOrderStatus (s : Store) (orderId : String) : Option String :=
  (lookupOrder s orderId).map (fun row => row.status)

/-- The status column of the shipment row with the given id, when it exists. -/
def lookupShipmentStatus (s : Store) (shipmentId : String) : Option String :=
  (lookupShipment s shipmentId).map (fun row => row.status)

/-- `UPDATE orders SET status = %s WHERE id = %s`. -/
def updateOrderStatus (orders : List (String × OrderRow)) (orderId newStatus : String) :
    List (String × OrderRow) :=
  orders.map (fun e => if e.1 = orderId then (e.1, { e.2 with status := newStatus }) else e)

/-- `UPDATE inventory SET quantity = quantity - %s WHERE product_name = %s`. -/
def decrementInventory (inv : List (String × Int)) (product : String) (amount : Int) :
    List (String × Int) :=
  inv.map (fun e => if e.1 = product then (e.1, e.2 - amount) else e)

/-- `UPDATE shipments SET status = %s WHERE id = %s`. -/
def updateShipmentStatus (shipments : List (String × ShipmentRow))
    (shipmentId newStatus : String) : List (String × ShipmentRow) :=
  shipments.map (fun e => if e.1 = shipmentId then (e.1, { e.2 with status := newStatus }) else e)

/-- Python `str.split(':')` on the underlying character list: every colon is
a separator, adjacent or leading/trailing colons yield empty fields. -/
def splitColonChars : List Char → List (List Char)
  | [] => [[]]
  | c :: rest =>
    if c = ':' then [] :: splitColonChars rest
    else
      match splitColonChars rest with
      | [] => [[c]]
      | h :: t => (c :: h) :: t

/-- Python `message.split(':')` lifted to strings. -/
def pySplitColon (s : String) : List String :=
  (splitColonChars s.data).map String.mk

namespace Chaos

/-- The environment variables the chaos layer reads (`os.environ.get`
returns `None` for an unset variable). -/
structure Env where
  slowdownRate : Option String
  slowdownDelay : Option String
  dbSlowdownRate : Option String
  dbSlowdownDelay : Option String
  msgSlowdownRate : Option String
  msgSlowdownDelay : Option String
deriving Repr, DecidableEq

/-- Python truthiness of `os.environ.get(...)`: `None` and the empty string
are falsy, every other string is truthy. -/
def truthy : Option String → Bool
  | none => false
  | some s => !(s == "")

/-- The numeric value of an ASCII decimal digit, when the character is one. -/
def digitVal (c : Char) : Option Nat :=
  if '0' ≤ c ∧ c ≤ '9' then some (c.toNat - '0'.toNat) else none

/-- Accumulate decimal digits left to right; fails on any non-digit. -/
def parseDigitsAux : List Char → Nat → Option Nat
  | [], acc => some acc
  | c :: rest, acc =>
    match digitVal c with
    | some d => parseDigitsAux rest (acc * 10 + d)
    | none => none

/-- A non-empty all-digit character list read as a natural number. -/
def parseNatDigits : List Char → Option Nat
  | [] => none
  | c :: rest => parseDigitsAux (c :: rest) 0

/-- ASCII whitespace stripped by Python's `int()` before parsing. -/
def isSpaceChar (c : Char) : Bool :=
  c = ' ' ∨ c = '\t' ∨ c = '\n' ∨ c = '\r' ∨ c = '\x0b' ∨ c = '\x0c'

/-- Strip leading and trailing whitespace from a character list. -/
def trimChars (cs : List Char) : List Char :=
  ((cs.dropWhile isSpaceChar).reverse.dropWhile isSpaceChar).reverse

/-- Model of the Python built-in `int(str)` as used on env-var values:
optional surrounding whitespace, optional sign, then decimal digits;
anything else raises `ValueError`, modelled as `none`.  (Python also
accepts underscore digit separators, which no configuration here uses.) -/
def pyInt (s : String) : Option Int :=
  match trimChars s.data with
  | '+' :: rest => (parseNatDigits rest).map Int.ofNat
  | '-' :: rest => (parseNatDigits rest).map (fun n => -(Int.ofNat n))
  | cs => (parseNatDigits cs).map Int.ofNat

/-- `apply_slowdown(context)` from `common/chaos.py`, reading
`SLOWDOWN_RATE` / `SLOWDOWN_DELAY`.  `r` is the value drawn by
`random.random()` (uniform in `[0,1)`).  Result: whether the slowdown was
applied (the function's return value) and the milliseconds slept.  A
negative configured delay makes `time.sleep` raise `ValueError`, which the
function's own handler swallows before the `return True` line. -/
def apply_slowdown (env : Env) (r : ℚ) : Bool × Int :=
  if truthy env.slowdownRate && truthy env.slowdownDelay then
    match pyInt (env.slowdownRate.getD ""), pyInt (env.slowdownDelay.getD "") with
    | some rate, some delayMs =>
      if r * 100 < (rate : ℚ) then
        if delayMs < 0 then (false, 0) else (true, delayMs)
      else (false, 0)
    | _, _ => (false, 0)
  else (false, 0)

/-- `apply_msg_slowdown(context)` from `common/chaos.py`, reading
`MSG_SLOWDOWN_RATE` / `MSG_SLOWDOWN_DELAY`; same shape as
`apply_slowdown`. -/
def apply_msg_slowdown (env : Env) (r : ℚ) : Bool × Int :=
  if truthy env.msgSlowdownRate && truthy env.msgSlowdownDelay then
    match pyInt (env.msgSlowdownRate.getD ""), pyInt (env.msgSlowdownDelay.getD "") with
    | some rate, some delayMs =>
      if r * 100 < (rate : ℚ) then
        if delayMs < 0 then (false, 0) else (true, delayMs)
      else (false, 0)
    | _, _ => (false, 0)
  else (false, 0)

/-- `apply_db_slowdown(db_connection, context)` from `common/chaos.py`,
reading `DB_SLOWDOWN_RATE` / `DB_SLOWDOWN_DELAY`.  `connPresent` is the
truthiness of `db_connection`, `r` the `random.random()` draw, and
`queryOk` whether the heavy `generate_series`/`md5` query succeeds.  The
`except Exception` clause re-raises every failure inside the guarded block
(including an `int()` `ValueError`) as a `RuntimeError`, modelled as
`Except.error`; success carries (applied, iterations issued). -/
def apply_db_slowdown (env : Env) (connPresent : Bool) (r : ℚ) (queryOk : Bool) :
    Except String (Bool × Int) :=
  if truthy env.dbSlowdownRate && truthy env.dbSlowdownDelay && connPresent then
    match pyInt (env.dbSlowdownRate.getD ""), pyInt (env.dbSlowdownDelay.getD "") with
    | some rate, some delayMs =>
      if r * 100 < (rate : ℚ) then
        if queryOk then Except.ok (true, delayMs * 5000)
        else Except.error "Database query timeout"
      else Except.ok (false, 0)
    | _, _ => Except.error "Database query timeout"
  else Except.ok (false, 0)

end Chaos

namespace Inventory

/-- `process_order(order_id)` of the inventory service
(`inventory-py/app.py`): look up the order's product and quantity, read the
inventory level, and either reserve (decrement and publish
`inventory-reserved` and `order-updates`) or publish `OUT_OF_STOCK`;
a missing order row publishes nothing. -/
def process_order (s : Store) (orderId : String) : Store × List Msg :=
  match lookupOrder s orderId with
  | some row =>
    match lookupInventory s.inventory row.product with
    | some invQty =>
      if invQty ≥ row.quantity then
        ({ s with inventory := decrementInventory s.inventory row.product row.quantity },
         [⟨"inventory-reserved", orderId ++ ":RESERVED"⟩,
          ⟨"order-updates", orderId ++ ":INVENTORY_RESERVED"⟩])
      else
        (s, [⟨"order-updates", orderId ++ ":OUT_OF_STOCK"⟩])
    | none =>
      (s, [⟨"order-updates", orderId ++ ":OUT_OF_STOCK"⟩])
  | none => (s, [])

/-- Sequential consumption of a batch of `orders`-topic messages by the
inventory consumer loop, threading the store. -/
def processOrders (s : Store) (orderIds : List String) : Store :=
  orderIds.foldl (fun st oid => (process_order st oid).1) s

end Inventory

namespace Fulfillment

/-- `process_order(order_id)` of the fulfillment service
(`fulfillment-py/app.py`): the fraud check.  `r` is the `random.random()`
draw; `r > 0.9` routes to `FRAUD_DETECTED`, otherwise
`FRAUD_CHECK_PASSED`; the status is written to the order row and nothing
is published. -/
def process_order (s : Store) (orderId : String) (r : ℚ) : Store × List Msg :=
  match lookupOrder s orderId with
  | some _ =>
    let newStatus := if r > 9/10 then "FRAUD_DETECTED" else "FRAUD_CHECK_PASSED"
    ({ s with orders := updateOrderStatus s.orders orderId newStatus }, [])
  | none => (s, [])

/-- `process_order_update(message)` of the fulfillment service: split on
`':'`, drop the message when fewer than two fields result, otherwise write
the second field as the status of the order named by the first field when
that order row exists. -/
def process_order_update (s : Store) (message : String) : Store :=
  let parts := pySplitColon message
  if parts.length < 2 then s
  else
    let orderId := parts.getD 0 ""
    let newStatus := parts.getD 1 ""
    match lookupOrder s orderId with
    | some _ => { s with orders := updateOrderStatus s.orders orderId newStatus }
    | none => s

/-- Sequential consumption of a batch of `order-updates` messages by the
fulfillment consumer loop, threading the store. -/
def processOrderUpdates (s : Store) (messages : List String) : Store :=
  messages.foldl process_order_update s

end Fulfillment

namespace Orders

/-- `place_order()` of the orders service (`orders-py/app.py`): insert a
`PENDING` order row, then publish the bare order id on `orders` and
`"{orderId}:CREATED"` on `order-updates`; returns HTTP 201. -/
def place_order (s : Store) (orderId customerName customerEmail product : String)
    (quantity : Int) (price : ℚ) : Store × List Msg × Nat :=
  let row : OrderRow := ⟨customerName, customerEmail, product, quantity, price, "PENDING"⟩
  ({ s with orders := s.orders ++ [(orderId, row)] },
   [⟨"orders", orderId⟩, ⟨"order-updates", orderId ++ ":CREATED"⟩], 201)

/-- `cancel_order(order_id)` of the orders service: run
`UPDATE orders SET status = 'CANCELLED' WHERE id = %s`, then inspect
`cursor.rowcount`; zero rows updated returns 404 with no publication,
otherwise publish `"{orderId}:CANCELLED"` on `order-updates` and return
200. -/
def cancel_order (s : Store) (orderId : String) : Store × List Msg × Nat :=
  let s' := { s with orders := updateOrderStatus s.orders orderId "CANCELLED" }
  let rowsUpdated := (s.orders.filter (fun e => e.1 == orderId)).length
  if rowsUpdated = 0 then (s', [], 404)
  else (s', [⟨"order-updates", orderId ++ ":CANCELLED"⟩], 200)

end Orders

namespace Shipping

/-- `ship_shipment(shipment_id)` of the shipping processor
(`shipping-processor-py/app.py`): 404 when the shipment row is missing;
otherwise set its status to `SHIPPED` (no check of the current status) and
publish the `shipments` and `order-updates` pair. -/
def ship_shipment (s : Store) (shipmentId : String) : Store × List Msg × Nat :=
  match lookupShipment s shipmentId with
  | none => (s, [], 404)
  | some row =>
    ({ s with shipments := updateShipmentStatus s.shipments shipmentId "SHIPPED" },
     [⟨"shipments", shipmentId ++ ":" ++ row.orderId ++ ":SHIPPED"⟩,
      ⟨"order-updates", row.orderId ++ ":SHIPPED"⟩], 200)

/-- `deliver_shipment(shipment_id)` of the shipping processor: 404 when the
shipment row is missing; otherwise set its status to `DELIVERED` (no check
of the current status) and publish the `shipments` and `order-updates`
pair. -/
def deliver_shipment (s : Store) (shipmentId : String) : Store × List Msg × Nat :=
  match lookupShipment s shipmentId with
  | none => (s, [], 404)
  | some row =>
    ({ s with shipments := updateShipmentStatus s.shipments shipmentId "DELIVERED" },
     [⟨"shipments", shipmentId ++ ":" ++ row.orderId ++ ":DELIVERED"⟩,
      ⟨"order-updates", row.orderId ++ ":DELIVERED"⟩], 200)

end Shipping

/-- The order states named by the specification's state machine (spec
§4.1).  Defined from the spec's words, for comparison against the payloads
the code publishes. -/
def specOrderStates : List String :=
  ["PENDING", "FRAUD_CHECK_PASSED", "FRAUD_DETECTED", "INVENTORY_RESERVED",
   "OUT_OF_STOCK", "SHIPMENT_CREATED", "SHIPPED", "DELIVERED", "CANCELLED"]

lemma splitColonChars_of_no_colon (cs : List Char) (h : ':' ∉ cs) :
    splitColonChars cs = [cs] := by
  induction cs with
  | nil => rfl
  | cons c rest ih =>
    have hc : ¬ (c = ':') := by
      intro e
      exact h (e ▸ List.mem_cons_self c rest)
    have hr : ':' ∉ rest := fun m => h (List.mem_cons_of_mem _ m)
    simp [splitColonChars, hc, ih hr]

lemma splitColonChars_append (a b : List Char) (h : ':' ∉ a) :
    splitColonChars (a ++ ':' :: b) = a :: splitColonChars b := by
  induction a with
  | nil => simp [splitColonChars]
  | cons c a' ih =>
    have hc : ¬ (c = ':') := by
      intro e
      exact h (e ▸ List.mem_cons_self c a')
    have ha' : ':' ∉ a' := fun m => h (List.mem_cons_of_mem _ m)
    simp [splitColonChars, hc, ih ha']

lemma pySplitColon_pair (x y : String) (hx : ':' ∉ x.data) (hy : ':' ∉ y.data) :
    pySplitColon (x ++ ":" ++ y) = [x, y] := by
  have hdata : (x ++ ":" ++ y).data = x.data ++ ':' :: y.data := by
    rw [String.data_append, String.data_append]
    simp [List.append_assoc]
  rw [pySplitColon, hdata, splitColonChars_append _ _ hx, splitColonChars_of_no_colon _ hy]
  rfl

lemma find?_updateOrderStatus (orders : List (String × OrderRow)) (oid st : String) :
    (updateOrderStatus orders oid st).find? (fun e => e.1 == oid)
      = (orders.find? (fun e => e.1 == oid)).map
          (fun e => (e.1, { e.2 with status := st })) := by
  induction orders with
  | nil => rfl
  | cons a l ih =>
    by_cases h : a.1 = oid
    · simp [updateOrderStatus, List.find?_cons, h]
    · simp only [updateOrderStatus, List.map_cons] at *
      rw [if_neg h]
      have hb : (a.1 == oid) = false := by
        simp [h]
      simp [List.find?_cons, hb, ih]

lemma lookupOrder_updateOrderStatus (s : Store) (oid st : String) :
    lookupOrder { s with orders := updateOrderStatus s.orders oid st } oid
      = (lookupOrder s oid).map (fun row => { row with status := st }) := by
  simp only [lookupOrder, find?_updateOrderStatus, Option.map_map]
  rfl

lemma updateOrderStatus_of_find?_eq_none (orders : List (String × OrderRow)) (oid st : String)
    (h : orders.find? (fun e => e.1 == oid) = none) :
    updateOrderStatus orders oid st = orders := by
  rw [List.find?_eq_none] at h
  induction orders with
  | nil => rfl
  | cons a l ih =>
    have ha : ¬ (a.1 = oid) := by
      have := h a (List.mem_cons_self a l)
      simpa using this
    have hl := ih (fun x hx => h x (List.mem_cons_of_mem _ hx))
    simp [updateOrderStatus, ha] at *
    exact hl

lemma find?_updateShipmentStatus (shipments : List (String × ShipmentRow)) (sid st : String) :
    (updateShipmentStatus shipments sid st).find? (fun e => e.1 == sid)
      = (shipments.find? (fun e => e.1 == sid)).map
          (fun e => (e.1, { e.2 with status := st })) := by
  induction shipments with
  | nil => rfl
  | cons a l ih =>
    by_cases h : a.1 = sid
    · simp [updateShipmentStatus, List.find?_cons, h]
    · simp only [updateShipmentStatus, List.map_cons] at *
      rw [if_neg h]
      have hb : (a.1 == sid) = false := by
        simp [h]
      simp [List.find?_cons, hb, ih]

lemma lookupShipment_updateShipmentStatus (s : Store) (sid st : String) :
    lookupShipment { s with shipments := updateShipmentStatus s.shipments sid st } sid
      = (lookupShipment s sid).map (fun row => { row with status := st }) := by
  simp only [lookupShipment, find?_updateShipmentStatus, Option.map_map]
  rfl

lemma lookupInventory_decrementInventory_same (inv : List (String × Int)) (p : String)
    (d : Int) :
    lookupInventory (decrementInventory inv p d) p
      = (lookupInventory inv p).map (fun q => q - d) := by
  induction inv with
  | nil => rfl
  | cons a l ih =>
    by_cases h : a.1 = p
    · simp [decrementInventory, lookupInventory, List.find?_cons, h]
    · have hb : (a.1 == p) = false := by
        simp [h]
      simp only [decrementInventory, List.map_cons] at *
      rw [if_neg h]
      simp [lookupInventory, List.find?_cons, hb] at *
      exact ih

lemma lookupInventory_decrementInventory_other (inv : List (String × Int)) (p p' : String)
    (d : Int) (h : p' ≠ p) :
    lookupInventory (decrementInventory inv p d) p' = lookupInventory inv p' := by
  induction inv with
  | nil => rfl
  | cons a l ih =>
    by_cases ha : a.1 = p
    · have hb : (a.1 == p') = false := by
        rw [ha, beq_eq_false_iff_ne]
        exact fun e => h e.symm
      simp only [decrementInventory, List.map_cons] at *
      rw [if_pos ha]
      simp [lookupInventory, List.find?_cons, hb] at *
      exact ih
    · by_cases ha' : a.1 = p'
      · simp only [decrementInventory, List.map_cons] at *
        rw [if_neg ha]
        simp [lookupInventory, List.find?_cons, ha']
      · have hb : (a.1 == p') = false := by
          simp [ha']
        simp only [decrementInventory, List.map_cons] at *
        rw [if_neg ha]
        simp [lookupInventory, List.find?_cons, hb] at *
        exact ih

/-! Sample rows and stores used to instantiate the theorems below on
concrete inputs. -/

/-- A sample order row: 3 units of "Widget A". -/
def sampleRow : OrderRow :=
  { customerName := "Alice", customerEmail := "alice@example.com",
    product := "Widget A", quantity := 3, price := 99, status := "PENDING" }

/-- A sample order row asking for more units than are in stock. -/
def bigRow : OrderRow :=
  { customerName := "Bob", customerEmail := "bob@example.com",
    product := "Widget A", quantity := 200, price := 99, status := "PENDING" }

/-- A sample order row for a product with no inventory row. -/
def ghostRow : OrderRow :=
  { customerName := "Cam", customerEmail := "cam@example.com",
    product := "Widget Z", quantity := 1, price := 99, status := "PENDING" }

/-- A sample shipment row whose status is already DELIVERED. -/
def sampleShipment : ShipmentRow :=
  { orderId := "o1", carrier := "UPS", trackingNumber := "UP123456789",
    status := "DELIVERED" }

/-- A sample store: three orders, one inventory row, one delivered
shipment. -/
def sampleStore : Store :=
  { orders := [("o1", sampleRow), ("o2", bigRow), ("o3", ghostRow)],
    inventory := [("Widget A", 100)],
    shipments := [("s1", sampleShipment)] }

/-! Theorems settling the claims. -/

/-- C1: inventory reservation is deterministic given the inventory
snapshot: when the order's product has an inventory row with available
quantity ≥ the requested quantity, `process_order` decrements that
product's inventory by exactly the requested quantity and publishes
`"{orderId}:RESERVED"` on `inventory-reserved` and
`"{orderId}:INVENTORY_RESERVED"` on `order-updates`; when the requested
quantity exceeds the available quantity, or the product has no inventory
row, it leaves the store unchanged and publishes
`"{orderId}:OUT_OF_STOCK"` on `order-updates`. -/
theorem C1_reservation_deterministic (s : Store) (oid : String) (row : OrderRow)
    (h : lookupOrder s oid = some row) :
    (∀ q, lookupInventory s.inventory row.product = some q → row.quantity ≤ q →
      (Inventory.process_order s oid).2
          = [⟨"inventory-reserved", oid ++ ":RESERVED"⟩,
             ⟨"order-updates", oid ++ ":INVENTORY_RESERVED"⟩] ∧
      lookupInventory (Inventory.process_order s oid).1.inventory row.product
          = some (q - row.quantity) ∧
      (Inventory.process_order s oid).1.orders = s.orders) ∧
    (∀ q, lookupInventory s.inventory row.product = some q → q < row.quantity →
      Inventory.process_order s oid = (s, [⟨"order-updates", oid ++ ":OUT_OF_STOCK"⟩])) ∧
    (lookupInventory s.inventory row.product = none →
      Inventory.process_order s oid = (s, [⟨"order-updates", oid ++ ":OUT_OF_STOCK"⟩])) := by
  refine ⟨?_, ?_, ?_⟩
  · intro q hq hle
    simp [Inventory.process_order, h, hq, hle, lookupInventory_decrementInventory_same]
  · intro q hq hlt
    have hn : ¬ (row.quantity ≤ q) := not_le.mpr hlt
    simp [Inventory.process_order, h, hq, hn]
  · intro hnone
    simp [Inventory.process_order, h, hnone]

/-- Witness for C1 at the sample store: order "o1" (3 of "Widget A", 100
in stock) reserves and leaves 97; order "o2" (200 requested) is rejected
unchanged; order "o3" (no inventory row) is rejected unchanged. -/
theorem C1_reservation_deterministic_witness :
    (Inventory.process_order sampleStore "o1").2
        = [⟨"inventory-reserved", "o1" ++ ":RESERVED"⟩,
           ⟨"order-updates", "o1" ++ ":INVENTORY_RESERVED"⟩] ∧
    lookupInventory (Inventory.process_order sampleStore "o1").1.inventory "Widget A"
        = some (100 - 3) ∧
    Inventory.process_order sampleStore "o2"
        = (sampleStore, [⟨"order-updates", "o2" ++ ":OUT_OF_STOCK"⟩]) ∧
    Inventory.process_order sampleStore "o3"
        = (sampleStore, [⟨"order-updates", "o3" ++ ":OUT_OF_STOCK"⟩]) := by
  have h1 := (C1_reservation_deterministic sampleStore "o1" sampleRow rfl).1 100 rfl (by decide)
  have h2 := (C1_reservation_deterministic sampleStore "o2" bigRow rfl).2.1 100 rfl (by decide)
  have h3 := (C1_reservation_deterministic sampleStore "o3" ghostRow rfl).2.2 rfl
  exact ⟨h1.1, h1.2.1, h2, h3⟩

/-- One `process_order` step either leaves the inventory table untouched
or decrements the reserved product's observable quantity by the full
requested amount, guarded by availability. -/
lemma process_order_inventory_cases (s : Store) (oid : String) :
    (Inventory.process_order s oid).1.inventory = s.inventory ∨
    ∃ row q, lookupOrder s oid = some row ∧
      lookupInventory s.inventory row.product = some q ∧ row.quantity ≤ q ∧
      (Inventory.process_order s oid).1.inventory
        = decrementInventory s.inventory row.product row.quantity := by
  cases h : lookupOrder s oid with
  | none =>
    left
    simp [Inventory.process_order, h]
  | some row =>
    cases hq : lookupInventory s.inventory row.product with
    | none =>
      left
      simp [Inventory.process_order, h, hq]
    | some q =>
      by_cases hle : row.quantity ≤ q
      · right
        exact ⟨row, q, rfl, hq, hle, by simp [Inventory.process_order, h, hq, hle]⟩
      · left
        simp [Inventory.process_order, h, hq, hle]

/-- One `process_order` step preserves non-negativity of every observable
inventory quantity. -/
lemma process_order_preserves_nonneg (s : Store) (oid : String)
    (hinv : ∀ p q, lookupInventory s.inventory p = some q → 0 ≤ q) :
    ∀ p q, lookupInventory (Inventory.process_order s oid).1.inventory p = some q → 0 ≤ q := by
  intro p q hq
  rcases process_order_inventory_cases s oid with hsame | ⟨row, q0, _, hq0, hle, hdec⟩
  · rw [hsame] at hq
    exact hinv p q hq
  · rw [hdec] at hq
    by_cases hp : p = row.product
    · subst hp
      rw [lookupInventory_decrementInventory_same, hq0] at hq
      simp at hq
      omega
    · rw [lookupInventory_decrementInventory_other _ _ _ _ hp] at hq
      exact hinv p q hq

/-- C4: the inventory quantity never goes below zero and each sequentially
applied `process_order` is all-or-nothing: it either decrements the
product's observable quantity by the full requested amount (only when the
stored quantity is at least the requested positive amount) or leaves the
inventory unchanged, and non-negativity is preserved across any sequence
of invocations. -/
theorem C4_inventory_nonnegative_all_or_nothing (s : Store) (oid : String)
    (hinv : ∀ p q, lookupInventory s.inventory p = some q → 0 ≤ q) :
    (∀ p q, lookupInventory (Inventory.process_order s oid).1.inventory p = some q → 0 ≤ q) ∧
    (∀ row, lookupOrder s oid = some row → 0 < row.quantity →
      ((∃ q, lookupInventory s.inventory row.product = some q ∧ row.quantity ≤ q ∧
        lookupInventory (Inventory.process_order s oid).1.inventory row.product
          = some (q - row.quantity) ∧
        (∀ p, p ≠ row.product →
          lookupInventory (Inventory.process_order s oid).1.inventory p
            = lookupInventory s.inventory p))
       ∨ (Inventory.process_order s oid).1.inventory = s.inventory)) ∧
    (∀ orderIds : List String, ∀ p q,
      lookupInventory (Inventory.processOrders s orderIds).inventory p = some q → 0 ≤ q) := by
  refine ⟨process_order_preserves_nonneg s oid hinv, ?_, ?_⟩
  · intro row h _
    cases hq : lookupInventory s.inventory row.product with
    | none =>
      right
      simp [Inventory.process_order, h, hq]
    | some q =>
      by_cases hle : row.quantity ≤ q
      · left
        refine ⟨q, rfl, hle, ?_, ?_⟩
        · simp [Inventory.process_order, h, hq, hle, lookupInventory_decrementInventory_same]
        · intro p hp
          simp [Inventory.process_order, h, hq, hle,
            lookupInventory_decrementInventory_other _ _ _ _ hp]
      · right
        simp [Inventory.process_order, h, hq, hle]
  · intro orderIds
    induction orderIds generalizing s with
    | nil => exact hinv
    | cons oid0 rest ih =>
      have hstep := process_order_preserves_nonneg s oid0 hinv
      simpa [Inventory.processOrders] using
        ih (Inventory.process_order s oid0).1 hstep

/-- Witness for C4 at the sample store: the initial snapshot is
non-negative, and after processing orders "o1", "o2", "o3" in sequence the
"Widget A" level is the non-negative 97. -/
theorem C4_inventory_nonnegative_all_or_nothing_witness :
    lookupInventory (Inventory.processOrders sampleStore ["o1", "o2", "o3"]).inventory
        "Widget A" = some 97 ∧
    (0 : Int) ≤ 97 := by
  have hinv : ∀ p q, lookupInventory sampleStore.inventory p = some q → 0 ≤ q := by
    intro p q hq
    simp only [lookupInventory, sampleStore] at hq
    by_cases hp : ("Widget A" : String) = p
    · rw [← hp] at hq
      simp at hq
      omega
    · rw [List.find?_cons] at hq
      have : (("Widget A", (100 : Int)).1 == p) = false := by
        simpa using hp
      rw [this] at hq
      simp at hq
  have h97 : (0:Int) ≤ 97 :=
    (C4_inventory_nonnegative_all_or_nothing sampleStore "o1" hinv).2.2
      ["o1", "o2", "o3"] "Widget A" 97 (by decide)
  exact ⟨by decide, h97⟩

/-- C5: the fraud decision.  For an order id whose row exists, the
fulfillment service's `process_order` publishes nothing and writes
`FRAUD_DETECTED` to the order row exactly when the uniform draw `r` falls
in the top 10% of the range `[0,1)` (`r > 0.9`, i.e. `1 - r < 1/10`),
otherwise `FRAUD_CHECK_PASSED`. -/
theorem C5_fraud_decision (s : Store) (oid : String) (row : OrderRow) (r : ℚ)
    (h : lookupOrder s oid = some row) (h0 : 0 ≤ r) (h1 : r < 1) :
    (Fulfillment.process_order s oid r).2 = [] ∧
    lookupOrderStatus (Fulfillment.process_order s oid r).1 oid
      = some (if 9/10 < r then "FRAUD_DETECTED" else "FRAUD_CHECK_PASSED") ∧
    ((9/10 < r) ↔ (1 - r < 1/10)) := by
  refine ⟨?_, ?_, ?_⟩
  · simp [Fulfillment.process_order, h]
  · by_cases hr : (9 : ℚ)/10 < r
    · simp [Fulfillment.process_order, h, hr, lookupOrderStatus,
        lookupOrder_updateOrderStatus]
    · simp [Fulfillment.process_order, h, hr, lookupOrderStatus,
        lookupOrder_updateOrderStatus]
  · constructor
    · intro hlt
      linarith
    · intro hlt
      linarith

/-- Witness for C5 at the sample store with draws 1/2 (passes) and 19/20
(fraud). -/
theorem C5_fraud_decision_witness :
    (Fulfillment.process_order sampleStore "o1" (1/2)).2 = [] ∧
    lookupOrderStatus (Fulfillment.process_order sampleStore "o1" (1/2)).1 "o1"
      = some "FRAUD_CHECK_PASSED" ∧
    lookupOrderStatus (Fulfillment.process_order sampleStore "o1" (19/20)).1 "o1"
      = some "FRAUD_DETECTED" := by
  have hp := C5_fraud_decision sampleStore "o1" sampleRow (1/2) rfl (by norm_num) (by norm_num)
  have hf := C5_fraud_decision sampleStore "o1" sampleRow (19/20) rfl (by norm_num) (by norm_num)
  refine ⟨hp.1, ?_, ?_⟩
  · have := hp.2.1
    rwa [if_neg (by norm_num)] at this
  · have := hf.2.1
    rwa [if_pos (by norm_num)] at this

/-- C6: a malformed `order-updates` message — fewer than two
colon-delimited fields — is dropped by the fulfillment consumer without
mutating any order row: the store is returned unchanged. -/
theorem C6_malformed_update_dropped (s : Store) (message : String)
    (h : (pySplitColon message).length < 2) :
    Fulfillment.process_order_update s message = s := by
  simp [Fulfillment.process_order_update, h]

/-- Witness for C6: the colon-free message "abc" has a single field and
leaves the sample store unchanged. -/
theorem C6_malformed_update_dropped_witness :
    (pySplitColon "abc").length < 2 ∧
    Fulfillment.process_order_update sampleStore "abc" = sampleStore :=
  ⟨by decide, C6_malformed_update_dropped sampleStore "abc" (by decide)⟩

/-- Applying a single well-formed `"{orderId}:{status}"` message to a
store whose order row exists overwrites that row's status field. -/
lemma process_order_update_wellformed (s : Store) (oid st : String) (row : OrderRow)
    (h : lookupOrder s oid = some row) (hoid : ':' ∉ oid.data) (hst : ':' ∉ st.data) :
    Fulfillment.process_order_update s (oid ++ ":" ++ st)
      = { s with orders := updateOrderStatus s.orders oid st } := by
  unfold Fulfillment.process_order_update
  rw [pySplitColon_pair oid st hoid hst]
  simp [h]

/-- Folding well-formed updates for an existing order: the final status is
the last list entry, defaulting to the current status for the empty
list. -/
lemma lww_aux (sts : List String) (s : Store) (oid : String) (row : OrderRow)
    (h : lookupOrder s oid = some row) (hoid : ':' ∉ oid.data)
    (hsts : ∀ st ∈ sts, ':' ∉ st.data) :
    lookupOrderStatus
      (Fulfillment.processOrderUpdates s (sts.map (fun st => oid ++ ":" ++ st))) oid
      = some (sts.getLastD row.status) := by
  induction sts generalizing s row with
  | nil =>
    simp [Fulfillment.processOrderUpdates, lookupOrderStatus, h]
  | cons st rest ih =>
    have hst : ':' ∉ st.data := hsts st (List.mem_cons_self _ _)
    have hrest : ∀ x ∈ rest, ':' ∉ x.data := fun x hx => hsts x (List.mem_cons_of_mem _ hx)
    have hupd := process_order_update_wellformed s oid st row h hoid hst
    have h' : lookupOrder { s with orders := updateOrderStatus s.orders oid st } oid
        = some { row with status := st } := by
      rw [lookupOrder_updateOrderStatus, h]
      rfl
    simp only [List.map_cons, Fulfillment.processOrderUpdates, List.foldl_cons]
    rw [hupd]
    have := ih { s with orders := updateOrderStatus s.orders oid st }
      { row with status := st } h' hrest
    simp only [Fulfillment.processOrderUpdates] at this
    rw [List.getLastD_cons]
    exact this

/-- C2: last-writer-wins.  For an order that exists in the store and any
non-empty sequence of well-formed `"{orderId}:{status}"` messages for that
id, after the sequence is applied the order row's status equals the status
carried by the most recently applied message, irrespective of original
publish order. -/
theorem C2_last_writer_wins (s : Store) (oid : String) (row : OrderRow)
    (sts : List String) (hne : sts ≠ []) (h : lookupOrder s oid = some row)
    (hoid : ':' ∉ oid.data) (hsts : ∀ st ∈ sts, ':' ∉ st.data) :
    lookupOrderStatus
      (Fulfillment.processOrderUpdates s (sts.map (fun st => oid ++ ":" ++ st))) oid
      = some (sts.getLast hne) := by
  rw [lww_aux sts s oid row h hoid hsts, List.getLastD_eq_getLast?,
    List.getLast?_eq_getLast sts hne]
  rfl

/-- Witness for C2: applying "o1:INVENTORY_RESERVED" then "o1:SHIPPED" to
the sample store leaves order "o1" with status "SHIPPED", the last applied
message's payload. -/
theorem C2_last_writer_wins_witness :
    lookupOrderStatus
      (Fulfillment.processOrderUpdates sampleStore
        (["INVENTORY_RESERVED", "SHIPPED"].map (fun st => "o1" ++ ":" ++ st))) "o1"
      = some "SHIPPED" := by
  have := C2_last_writer_wins sampleStore "o1" sampleRow
    ["INVENTORY_RESERVED", "SHIPPED"] (by decide) rfl (by decide) (by decide)
  simpa using this

/-- C7: cancelling a non-existent order id returns 404, publishes nothing
and leaves the store unchanged; cancelling an existing order sets its
status to CANCELLED, publishes `"{orderId}:CANCELLED"` on `order-updates`
and returns 200. -/
theorem C7_cancel_order (s : Store) (oid : String) :
    (lookupOrder s oid = none → Orders.cancel_order s oid = (s, [], 404)) ∧
    (∀ row, lookupOrder s oid = some row →
      lookupOrderStatus (Orders.cancel_order s oid).1 oid = some "CANCELLED" ∧
      (Orders.cancel_order s oid).2.1 = [⟨"order-updates", oid ++ ":CANCELLED"⟩] ∧
      (Orders.cancel_order s oid).2.2 = 200) := by
  constructor
  · intro h
    have hfind : s.orders.find? (fun e => e.1 == oid) = none := by
      unfold lookupOrder at h
      cases hf : s.orders.find? (fun e => e.1 == oid) with
      | none => rfl
      | some a =>
        rw [hf] at h
        simp at h
    have hupd := updateOrderStatus_of_find?_eq_none s.orders oid "CANCELLED" hfind
    have hfil : (s.orders.filter (fun e => e.1 == oid)).length = 0 := by
      rw [List.find?_eq_none] at hfind
      have hnil : s.orders.filter (fun e => e.1 == oid) = [] :=
        List.filter_eq_nil_iff.mpr (fun a ha => hfind a ha)
      rw [hnil]
      rfl
    simp [Orders.cancel_order, hupd, hfil]
  · intro row h
    obtain ⟨e, hfind⟩ : ∃ e, s.orders.find? (fun x => x.1 == oid) = some e := by
      unfold lookupOrder at h
      cases hf : s.orders.find? (fun x => x.1 == oid) with
      | none =>
        rw [hf] at h
        simp at h
      | some a => exact ⟨a, rfl⟩
    have hmem : e ∈ s.orders := List.mem_of_find?_eq_some hfind
    have hpred : (e.1 == oid) = true :=
      List.find?_some (p := fun x : String × OrderRow => x.1 == oid) hfind
    have hfil : ¬ ((s.orders.filter (fun x => x.1 == oid)).length = 0) := by
      have hin : e ∈ s.orders.filter (fun x => x.1 == oid) :=
        List.mem_filter.mpr ⟨hmem, hpred⟩
      intro hlen
      rw [List.length_eq_zero] at hlen
      rw [hlen] at hin
      exact absurd hin (List.not_mem_nil e)
    refine ⟨?_, ?_, ?_⟩
    · simp only [Orders.cancel_order]
      rw [if_neg hfil]
      simp only [lookupOrderStatus, lookupOrder_updateOrderStatus, h]
      rfl
    · simp [Orders.cancel_order, hfil]
    · simp [Orders.cancel_order, hfil]

/-- Witness for C7: cancelling the unknown id "nope" in the sample store
returns (unchanged store, no messages, 404); cancelling "o1" yields status
CANCELLED, one `order-updates` message and 200. -/
theorem C7_cancel_order_witness :
    Orders.cancel_order sampleStore "nope" = (sampleStore, [], 404) ∧
    lookupOrderStatus (Orders.cancel_order sampleStore "o1").1 "o1" = some "CANCELLED" ∧
    (Orders.cancel_order sampleStore "o1").2.1
      = [⟨"order-updates", "o1" ++ ":CANCELLED"⟩] ∧
    (Orders.cancel_order sampleStore "o1").2.2 = 200 := by
  refine ⟨(C7_cancel_order sampleStore "nope").1 rfl, ?_⟩
  exact (C7_cancel_order sampleStore "o1").2 sampleRow rfl

/-- Counterexample to C3 as stated: in the sample store, shipment "s1" has
status DELIVERED, yet invoking the ship operation on it sets the status
back to SHIPPED — the transition moves backwards. -/
theorem C3_forward_only_counterexample :
    lookupShipmentStatus sampleStore "s1" = some "DELIVERED" ∧
    lookupShipmentStatus (Shipping.ship_shipment sampleStore "s1").1 "s1"
      = some "SHIPPED" := by
  constructor
  · rfl
  · rfl

/-- C3 amended: the ship and deliver operations write their target status
unconditionally whenever the shipment row exists, regardless of the
current status — ship sets SHIPPED (even on a DELIVERED shipment) and
deliver sets DELIVERED, each publishing its `shipments` and
`order-updates` pair; no forward-only transition check is enforced. -/
theorem C3_ship_deliver_overwrite (s : Store) (sid : String) (row : ShipmentRow)
    (h : lookupShipment s sid = some row) :
    lookupShipmentStatus (Shipping.ship_shipment s sid).1 sid = some "SHIPPED" ∧
    (Shipping.ship_shipment s sid).2.1
      = [⟨"shipments", sid ++ ":" ++ row.orderId ++ ":SHIPPED"⟩,
         ⟨"order-updates", row.orderId ++ ":SHIPPED"⟩] ∧
    lookupShipmentStatus (Shipping.deliver_shipment s sid).1 sid = some "DELIVERED" ∧
    (Shipping.deliver_shipment s sid).2.1
      = [⟨"shipments", sid ++ ":" ++ row.orderId ++ ":DELIVERED"⟩,
         ⟨"order-updates", row.orderId ++ ":DELIVERED"⟩] := by
  refine ⟨?_, ?_, ?_, ?_⟩
  · simp [Shipping.ship_shipment, h, lookupShipmentStatus,
      lookupShipment_updateShipmentStatus]
  · simp [Shipping.ship_shipment, h]
  · simp [Shipping.deliver_shipment, h, lookupShipmentStatus,
      lookupShipment_updateShipmentStatus]
  · simp [Shipping.deliver_shipment, h]

/-- Witness for the amended C3 at the sample store's shipment "s1". -/
theorem C3_ship_deliver_overwrite_witness :
    lookupShipmentStatus (Shipping.ship_shipment sampleStore "s1").1 "s1"
      = some "SHIPPED" ∧
    (Shipping.ship_shipment sampleStore "s1").2.1
      = [⟨"shipments", "s1" ++ ":" ++ "o1" ++ ":SHIPPED"⟩,
         ⟨"order-updates", "o1" ++ ":SHIPPED"⟩] ∧
    lookupShipmentStatus (Shipping.deliver_shipment sampleStore "s1").1 "s1"
      = some "DELIVERED" ∧
    (Shipping.deliver_shipment sampleStore "s1").2.1
      = [⟨"shipments", "s1" ++ ":" ++ "o1" ++ ":DELIVERED"⟩,
         ⟨"order-updates", "o1" ++ ":DELIVERED"⟩] :=
  C3_ship_deliver_overwrite sampleStore "s1" sampleShipment rfl

/-- C8: the service-slowdown and message-slowdown mechanisms are silent
no-ops under bad configuration: whenever the mechanism's rate or delay
parameter is absent or does not parse as an integer, the function sleeps
for 0 ms and returns `false`, for every value of the random draw. -/
theorem C8_slowdown_silent_noop (env : Chaos.Env) (r : ℚ)
    (hs : env.slowdownRate = none ∨ env.slowdownDelay = none ∨
          Chaos.pyInt (env.slowdownRate.getD "") = none ∨
          Chaos.pyInt (env.slowdownDelay.getD "") = none)
    (hm : env.msgSlowdownRate = none ∨ env.msgSlowdownDelay = none ∨
          Chaos.pyInt (env.msgSlowdownRate.getD "") = none ∨
          Chaos.pyInt (env.msgSlowdownDelay.getD "") = none) :
    Chaos.apply_slowdown env r = (false, 0) ∧
    Chaos.apply_msg_slowdown env r = (false, 0) := by
  constructor
  · cases hg : (Chaos.truthy env.slowdownRate && Chaos.truthy env.slowdownDelay) with
    | false => simp [Chaos.apply_slowdown, hg]
    | true =>
      have h12 : Chaos.pyInt (env.slowdownRate.getD "") = none ∨
          Chaos.pyInt (env.slowdownDelay.getD "") = none := by
        rcases hs with h | h | h | h
        · rw [h] at hg
          simp [Chaos.truthy] at hg
        · rw [h] at hg
          simp [Chaos.truthy] at hg
        · exact Or.inl h
        · exact Or.inr h
      cases hr : Chaos.pyInt (env.slowdownRate.getD "") with
      | none => simp [Chaos.apply_slowdown, hg, hr]
      | some v =>
        cases hd : Chaos.pyInt (env.slowdownDelay.getD "") with
        | none => simp [Chaos.apply_slowdown, hg, hr, hd]
        | some w =>
          rw [hr, hd] at h12
          rcases h12 with h' | h' <;> simp at h'
  · cases hg : (Chaos.truthy env.msgSlowdownRate && Chaos.truthy env.msgSlowdownDelay) with
    | false => simp [Chaos.apply_msg_slowdown, hg]
    | true =>
      have h12 : Chaos.pyInt (env.msgSlowdownRate.getD "") = none ∨
          Chaos.pyInt (env.msgSlowdownDelay.getD "") = none := by
        rcases hm with h | h | h | h
        · rw [h] at hg
          simp [Chaos.truthy] at hg
        · rw [h] at hg
          simp [Chaos.truthy] at hg
        · exact Or.inl h
        · exact Or.inr h
      cases hr : Chaos.pyInt (env.msgSlowdownRate.getD "") with
      | none => simp [Chaos.apply_msg_slowdown, hg, hr]
      | some v =>
        cases hd : Chaos.pyInt (env.msgSlowdownDelay.getD "") with
        | none => simp [Chaos.apply_msg_slowdown, hg, hr, hd]
        | some w =>
          rw [hr, hd] at h12
          rcases h12 with h' | h' <;> simp at h'

/-- A chaos environment with a non-numeric service-slowdown rate and an
absent message-slowdown delay; the db pair is validly configured. -/
def badChaosEnv : Chaos.Env :=
  { slowdownRate := some "abc", slowdownDelay := some "50",
    dbSlowdownRate := some "100", dbSlowdownDelay := some "50",
    msgSlowdownRate := some "10", msgSlowdownDelay := none }

/-- Witness for C8 on `badChaosEnv` with draw 0: both functions report no
slowdown and no wait. -/
theorem C8_slowdown_silent_noop_witness :
    Chaos.apply_slowdown badChaosEnv 0 = (false, 0) ∧
    Chaos.apply_msg_slowdown badChaosEnv 0 = (false, 0) :=
  C8_slowdown_silent_noop badChaosEnv 0
    (Or.inr (Or.inr (Or.inl (by decide))))
    (Or.inr (Or.inl rfl))

/-- C9: the database slowdown does not fail open.  Whenever it is
triggered (valid configuration, connection present, probability gate
passed) a failing backend query escalates as an error to the caller, and a
succeeding one issues a query sized at exactly `delay_ms * 5000`
iterations. -/
theorem C9_db_slowdown_not_fail_open (env : Chaos.Env) (r : ℚ) (rate delayMs : Int)
    (hrt : Chaos.truthy env.dbSlowdownRate = true)
    (hdt : Chaos.truthy env.dbSlowdownDelay = true)
    (hpr : Chaos.pyInt (env.dbSlowdownRate.getD "") = some rate)
    (hpd : Chaos.pyInt (env.dbSlowdownDelay.getD "") = some delayMs)
    (hgate : r * 100 < (rate : ℚ)) :
    Chaos.apply_db_slowdown env true r false = Except.error "Database query timeout" ∧
    Chaos.apply_db_slowdown env true r true = Except.ok (true, delayMs * 5000) := by
  constructor <;> simp [Chaos.apply_db_slowdown, hrt, hdt, hpr, hpd, hgate]

/-- Witness for C9 on `badChaosEnv` (db rate 100, delay 50) with draw 0: a
failing query escalates, a succeeding one issues 250000 iterations. -/
theorem C9_db_slowdown_not_fail_open_witness :
    Chaos.apply_db_slowdown badChaosEnv true 0 false
      = Except.error "Database query timeout" ∧
    Chaos.apply_db_slowdown badChaosEnv true 0 true = Except.ok (true, 50 * 5000) :=
  C9_db_slowdown_not_fail_open badChaosEnv 0 100 50 rfl rfl (by decide) (by decide)
    (by norm_num)

/-- C10: order creation publishes the bare order id on `orders` and then
`"{orderId}:CREATED"` on `order-updates`, although CREATED is not one of
the states of the specified order state machine; a consumer of
`order-updates` that applies this message overwrites the order's status
with CREATED. -/
theorem C10_created_event_outside_state_machine (s sc : Store)
    (oid customerName customerEmail product : String) (quantity : Int) (price : ℚ)
    (row : OrderRow) (hoid : ':' ∉ oid.data) (h : lookupOrder sc oid = some row) :
    (Orders.place_order s oid customerName customerEmail product quantity price).2.1
      = [⟨"orders", oid⟩, ⟨"order-updates", oid ++ ":CREATED"⟩] ∧
    "CREATED" ∉ specOrderStates ∧
    lookupOrderStatus (Fulfillment.process_order_update sc (oid ++ ":" ++ "CREATED")) oid
      = some "CREATED" := by
  refine ⟨rfl, by decide, ?_⟩
  rw [process_order_update_wellformed sc oid "CREATED" row h hoid (by decide)]
  simp only [lookupOrderStatus, lookupOrder_updateOrderStatus, h]
  rfl

/-- Witness for C10: placing an order with id "o1" publishes the id and
the CREATED update, and applying "o1:CREATED" to the sample store
overwrites order "o1"'s status with CREATED. -/
theorem C10_created_event_outside_state_machine_witness :
    (Orders.place_order sampleStore "o1" "Dru" "dru@example.com" "Widget A" 1 99).2.1
      = [⟨"orders", "o1"⟩, ⟨"order-updates", "o1" ++ ":CREATED"⟩] ∧
    "CREATED" ∉ specOrderStates ∧
    lookupOrderStatus (Fulfillment.process_order_update sampleStore ("o1" ++ ":" ++ "CREATED")) "o1"
      = some "CREATED" :=
  C10_created_event_outside_state_machine sampleStore sampleStore "o1" "Dru"
    "dru@example.com" "Widget A" 1 99 sampleRow (by decide) rfl

end Fabrik
